import Mathlib

/-!
Shallow embedding of `src/main.py` of the discord-slack-mirror repository.

Conventions of the embedding:
* Python strings are `String` / `List Char`; a nullable string is `Option String`.
* A dict field whose key may be absent is an `Option`; the `guild_id` key can
  additionally be present with value `None`, so it is `Option (Option String)`.
* Timestamps are embedded as integers (microseconds).  Discord delivers every
  timestamp in one fixed ISO-8601 UTC format, on which `datetime.fromisoformat`
  comparison and lexicographic comparison of the raw strings coincide, so a
  single totally ordered integer value stands for both views.
* HTTP exchanges are embedded by passing the (already parsed) response as an
  argument; raising code returns `Except`.
* The specific `re.sub` calls of the source are embedded by specialised
  scanners implementing the leftmost, non-overlapping semantics of `re.sub`
  with lazy (`.+?`) and greedy (`?`, `+`) quantifiers for exactly the patterns
  occurring in the source.
-/

/-- Python truthiness of a nullable string: `None` and `""` are falsy. -/
def pyFalsyStr : Option String → Bool
  | none => true
  | some s => s = ""

/-- Python `x or y` where `x` is a nullable string and `y` a string. -/
def strOr (x : Option String) (y : String) : String :=
  match x with
  | some s => if s = "" then y else s
  | none => y

/-- Python `f"{x}"` for a nullable string (interpolates `None` as "None"). -/
def pyStrOpt : Option String → String
  | none => "None"
  | some s => s

/-- Lazy search for `(.+?)` followed by the literal delimiter `close`:
the group takes at least one non-newline character and stops at the first
point where `close` is a prefix of the remainder; returns the group and the
rest after `close`. -/
def findLazy (close : List Char) : List Char → Option (List Char × List Char)
  | [] => none
  | c :: rest =>
    if c = '\n' then none
    else if close.isPrefixOf rest then some ([c], rest.drop close.length)
    else
      match findLazy close rest with
      | some (inner, r) => some (c :: inner, r)
      | none => none

/-- One `re.sub` pass: scan left to right, at each position try the matcher
(which returns the replacement text and the rest after a nonempty match);
on a match emit the replacement and continue after the match, otherwise
move one character.  Fuel is the string length; every step consumes at
least one character, so the fuel never runs out on `reSub`. -/
def reSubGo (tryAt : List Char → Option (List Char × List Char)) :
    Nat → List Char → List Char
  | 0, s => s
  | _ + 1, [] => []
  | fuel + 1, c :: rest =>
    match tryAt (c :: rest) with
    | some (out, r) => out ++ reSubGo tryAt fuel r
    | none => c :: reSubGo tryAt fuel rest

/-- Embedding of `re.sub(pattern, repl, s)` for the matchers used in this file. -/
def reSub (tryAt : List Char → Option (List Char × List Char)) (s : List Char) :
    List Char :=
  reSubGo tryAt s.length s

/-- Matcher for the emphasis/strikethrough patterns `openD(.+?)closeD` with
replacement `pre\1post` (lines 24-28 of `src/main.py`). -/
def matchDelim (openD closeD pre post : List Char) (s : List Char) :
    Option (List Char × List Char) :=
  if openD.isPrefixOf s then
    match findLazy closeD (s.drop openD.length) with
    | some (inner, r) => some (pre ++ inner ++ post, r)
    | none => none
  else none

/-- Matcher for the link pattern `\[([^\]]+)\]\(([^)]+)\)` with replacement
`<\2|\1>` (line 22 of `src/main.py`). -/
def matchLink (s : List Char) : Option (List Char × List Char) :=
  match s with
  | '[' :: s1 =>
    let label := s1.takeWhile (fun c => c ≠ ']')
    if label = [] then none
    else
      match s1.drop label.length with
      | ']' :: '(' :: s2 =>
        let url := s2.takeWhile (fun c => c ≠ ')')
        if url = [] then none
        else
          match s2.drop url.length with
          | ')' :: r => some ('<' :: url ++ '|' :: label ++ ['>'], r)
          | _ => none
      | _ => none
  | _ => none

/-- Matcher for `:([^:]+):\d+>`, the part of the custom-emoji pattern after
`<a?` (line 30 of `src/main.py`); replacement `:\1:`. -/
def matchEmojiCore (s : List Char) : Option (List Char × List Char) :=
  match s with
  | ':' :: s1 =>
    let name := s1.takeWhile (fun c => c ≠ ':')
    if name = [] then none
    else
      match s1.drop name.length with
      | ':' :: s2 =>
        let digits := s2.takeWhile Char.isDigit
        if digits = [] then none
        else
          match s2.drop digits.length with
          | '>' :: r => some (':' :: name ++ [':'], r)
          | _ => none
      | _ => none
  | _ => none

/-- Matcher for the custom-emoji pattern `<a?:([^:]+):\d+>` (line 30 of
`src/main.py`).  When the optional `a` is consumed and the rest fails, the
backtracked alternative (no `a`) needs a `:` where the `a` stands, which
always fails, so no backtracking is required. -/
def matchEmoji : List Char → Option (List Char × List Char)
  | '<' :: 'a' :: s1 => matchEmojiCore s1
  | '<' :: s1 => matchEmojiCore s1
  | _ => none

/-- A user object of the `mentions` array of a Discord message.  The source
reads only the keys `id`, `global_name` and `username`; a `nick` is carried
by the member payload of richer gateway objects but is never consulted by
`discord_to_slack_markdown`. -/
structure MentionUser where
  id : String
  username : Option String
  global_name : Option String
  nick : Option String
deriving DecidableEq

/-- Embedding of `user.get("global_name") or user.get("username", user_id)`
(line 19 of `src/main.py`). -/
def mention_name (u : MentionUser) : String :=
  strOr u.global_name (u.username.getD u.id)

/-- Matcher tail for `{id}>?`: the literal id, then a greedy optional `>`. -/
def mentionIdTail (idc : List Char) (s : List Char) : Option (List Char) :=
  if idc.isPrefixOf s then
    match s.drop idc.length with
    | '>' :: r => some r
    | r => some r
  else none

/-- Matcher tail for `!?{id}>?`: greedy optional `!` with backtracking. -/
def mentionTail (idc : List Char) (s : List Char) : Option (List Char) :=
  match s with
  | '!' :: r => (mentionIdTail idc r).orElse (fun _ => mentionIdTail idc s)
  | _ => mentionIdTail idc s

/-- Matcher for the mention pattern `<?@!?{id}>?` (line 20 of `src/main.py`).
An unconsumed leading `<` cannot be followed by a successful `@`, so the
optional `<` needs no backtracking. -/
def matchMention (idc : List Char) : List Char → Option (List Char)
  | '<' :: '@' :: r => mentionTail idc r
  | '@' :: r => mentionTail idc r
  | _ => none

/-- The mention matcher packaged with its replacement `@{name}`. -/
def mentionTry (idc repl : List Char) (s : List Char) :
    Option (List Char × List Char) :=
  (matchMention idc s).map (fun r => (repl, r))

/-- The mention loop of `discord_to_slack_markdown` (lines 16-20 of
`src/main.py`): one `re.sub` per mention user, applied sequentially. -/
def mentionSub (users : List MentionUser) (s : List Char) : List Char :=
  users.foldl (fun c u => reSub (mentionTry u.id.data ('@' :: (mention_name u).data)) c) s

/-- The rewrite cascade of `discord_to_slack_markdown` for truthy content
(lines 16-31 of `src/main.py`), each rule applied to the output of the
previous one: mentions, links, `***`, `**`, `*`, `~~`, custom emoji. -/
def convertPipeline (mentions : Option (List MentionUser)) (s : List Char) :
    List Char :=
  let c1 := match mentions with
    | some ms => if ms = [] then s else mentionSub ms s
    | none => s
  let c2 := reSub matchLink c1
  let c3 := reSub (matchDelim "***".data "***".data "*_".data "_*".data) c2
  let c4 := reSub (matchDelim "**".data "**".data "*".data "*".data) c3
  let c5 := reSub (matchDelim "*".data "*".data "_".data "_".data) c4
  let c6 := reSub (matchDelim "~~".data "~~".data "~".data "~".data) c5
  reSub matchEmoji c6

/-- Embedding of `discord_to_slack_markdown(content, mentions=None)` from `src/main.py`:
falsy content (null or empty) is returned unchanged, otherwise the rewrite
cascade is applied. -/
def discord_to_slack_markdown (content : Option String)
    (mentions : Option (List MentionUser) := none) : Option String :=
  if pyFalsyStr content then content
  else some (String.mk (convertPipeline mentions (content.getD "").data))

example : discord_to_slack_markdown (some "***a***") = some "__a__" := by decide
example : discord_to_slack_markdown (some "**a**") = some "_a_" := by decide
example : discord_to_slack_markdown (some "*a*") = some "_a_" := by decide
example : discord_to_slack_markdown (some "**a** and *b*") = some "_a_ and _b_" := by decide
example : discord_to_slack_markdown (some "~~x~~") = some "~x~" := by decide
example : discord_to_slack_markdown (some "<a:wave:123>") = some ":wave:" := by decide
example : discord_to_slack_markdown (some "[site](http://x)") = some "<http://x|site>" := by decide
example :
    discord_to_slack_markdown (some "hi <@12>")
      (some [⟨"12", some "user", some "Glob", none⟩]) = some "hi @Glob" := by decide

/-- The `author` object of a Discord message: the keys read by the source. -/
structure Author where
  username : Option String
  global_name : Option String
deriving DecidableEq

/-- The `member` object of a Discord message: the key read by the source. -/
structure Member where
  nick : Option String
deriving DecidableEq

/-- The `referenced_message` object of a reply: the fields read by
`get_reply_info` and by `get_discord_url` applied to it. -/
structure RefMsg where
  id : Option String
  channel_id : Option String
  guild_id : Option (Option String)
  author : Option Author
deriving DecidableEq

/-- A fetched Discord message: the dict keys read by `src/main.py`.
`guild_id` distinguishes key-absent (`none`) from key-present-but-null
(`some none`), since `main` stamps the key unconditionally; `channel_name`
embeds the post-fetch `_channel_name` annotation. -/
structure Message where
  id : Option String
  channel_id : Option String
  guild_id : Option (Option String)
  author : Option Author
  member : Option Member
  timestamp : Int
  content : Option String
  mentions : Option (List MentionUser)
  type : Option Int
  referenced_message : Option RefMsg
  channel_name : Option String
deriving DecidableEq

/-- Embedding of `get_author_name` (lines 104-108 of `src/main.py`): `member.get("nick")
or author.get("global_name") or author.get("username", "Unknown")`. -/
def get_author_name (msg : Message) : String :=
  strOr (msg.member.bind Member.nick)
    (strOr (msg.author.bind Author.global_name)
      ((msg.author.bind Author.username).getD "Unknown"))

/-- The key test and URL construction of `get_discord_url` (lines 111-115):
it requires the `guild_id`, `channel_id` and `id` keys to be present; the
`guild_id` value may still be null, which the f-string renders as "None". -/
def get_discord_url_parts (guild : Option (Option String))
    (chan mid : Option String) : Option String :=
  match guild, chan, mid with
  | some g, some c, some i =>
    some ("https://discord.com/channels/" ++ pyStrOpt g ++ "/" ++ c ++ "/" ++ i)
  | _, _, _ => none

/-- Embedding of `get_discord_url` (lines 111-115) applied to a message. -/
def get_discord_url (msg : Message) : Option String :=
  get_discord_url_parts msg.guild_id msg.channel_id msg.id

/-- Embedding of `get_reply_info` (lines 118-129).  The statement
`ref["guild_id"] = msg["guild_id"]` raises `KeyError` when the message has
no `guild_id` key; otherwise the result pairs the replied-to author name
with the optional URL of the referenced message. -/
def get_reply_info (msg : Message) :
    Except String (Option String × Option String) :=
  if msg.type ≠ some 19 then Except.ok (none, none)
  else
    match msg.referenced_message with
    | none => Except.ok (none, none)
    | some ref =>
      let name := strOr (ref.author.bind Author.global_name)
        ((ref.author.bind Author.username).getD "someone")
      match msg.guild_id with
      | none => Except.error "KeyError: guild_id"
      | some g =>
        let ref2 : RefMsg := { ref with guild_id := some g }
        let url := if pyFalsyStr ref2.id then none
          else get_discord_url_parts ref2.guild_id ref2.channel_id ref2.id
        Except.ok (some name, url)

/-- Embedding of `str(datetime)` for the integer timestamp model. -/
def dtStr (t : Int) : String := toString t

/-- A Slack block as the block-renderer code of lines 132-164 would shape
it: a section (mrkdwn text plus an optional button URL), a context line,
or a divider. -/
inductive Block where
  | sect (text : String) (accessory_url : Option String) : Block
  | context (text : String) : Block
  | divider : Block
deriving DecidableEq

/-- Verbatim text of the header f-string literal of line 142 of
`src/main.py` (the branch for a truthy channel name), written there as
`[<!date^{dt}^\{time\}>|{timestamp}] *{author}* in #{channel_name}`. -/
def line142FString : String :=
  "[<!date^{dt}^" ++ String.mk ['\\', '{'] ++ "time"
    ++ String.mk ['\\', '}'] ++ ">|{timestamp}] *{author}* in #{channel_name}"

/-- CPython (3.11) compile-time scan of an f-string literal, restricted to
the rules that decide line 142: outside a replacement field a doubled `{{`
is a literal brace and a single `{` opens a field; inside a field the
expression part runs to the closing `}` and may not contain a backslash.
The Bool says whether the scan is inside an expression part; the result is
the first compile error, if any. -/
def fstringScan : Bool → List Char → Option String
  | false, [] => none
  | false, '{' :: '{' :: rest => fstringScan false rest
  | false, '{' :: rest => fstringScan true rest
  | false, _ :: rest => fstringScan false rest
  | true, [] => some "SyntaxError: f-string: unterminated replacement field"
  | true, '\\' :: _ =>
    some "SyntaxError: f-string expression part cannot include a backslash"
  | true, '}' :: rest => fstringScan false rest
  | true, _ :: rest => fstringScan true rest

/-- Importing `src/main.py`: CPython compiles the whole module before any
definition is created, and the f-string of line 142 is part of that
compilation.  Its failure aborts the import, so no function of the module
— `message_to_blocks` and `post_to_slack` included — ever exists at run
time, and in particular line 142's body has no runtime semantics to
embed. -/
def importMainModule : Except String Unit :=
  match fstringScan false line142FString.data with
  | some e => Except.error e
  | none => Except.ok ()

/-- A simulated HTTP response for a Discord channel message-list request:
status code plus the parsed JSON body. -/
structure HttpResponse where
  status_code : Nat
  body : List Message
deriving DecidableEq

/-- Embedding of `get_discord_messages` (lines 77-101), with the HTTP exchange embedded
as the passed-in response: 403 and 404 give an empty list,
`raise_for_status` raises on any 4xx/5xx status, and with a watermark only
messages with `timestamp > since` are kept. -/
def get_discord_messages (resp : HttpResponse) (since : Option Int := none)
    (limit : Nat := 100) : Except Nat (List Message) :=
  if resp.status_code = 403 then Except.ok []
  else if resp.status_code = 404 then Except.ok []
  else if 400 ≤ resp.status_code ∧ resp.status_code < 600 then
    Except.error resp.status_code
  else
    let messages := resp.body
    match since with
    | none => Except.ok messages
    | some w => Except.ok (messages.filter (fun m => w < m.timestamp))

/-- A run record of the external run-history service (`ended_at` nullable). -/
structure Run where
  ended_at : Option Int
deriving DecidableEq

/-- A page of run records. -/
structure RunsPage where
  runs : List Run
deriving DecidableEq

/-- The loop of lines 64-67: the first run of the page with a non-null
`ended_at`. -/
def firstEnded : List Run → Option Int
  | [] => none
  | r :: rs =>
    match r.ended_at with
    | some t => some t
    | none => firstEnded rs

/-- The five-minute fallback lookback, in microseconds. -/
def fiveMinutes : Int := 5 * 60 * 1000000

/-- Embedding of `get_last_successful_run_time` (lines 42-74), with the run-history query
embedded as its outcome (`Except.error` for a raised exception, `none` for
a null response object).  Returns the resolved watermark together with the
lines printed. -/
def get_last_successful_run_time (tower_token : Option String)
    (query : Except String (Option RunsPage)) (now : Int) : Int × List String :=
  if pyFalsyStr tower_token then
    (now - fiveMinutes, ["Warning: TOWER_API_KEY not set, using 5-minute lookback"])
  else
    match query with
    | Except.error e =>
      (now - fiveMinutes,
        ["Warning: Could not fetch last run time: " ++ e ++ ", using 5-minute lookback"])
    | Except.ok none =>
      (now - fiveMinutes, ["No previous successful runs found, using 5-minute lookback"])
    | Except.ok (some page) =>
      match firstEnded page.runs with
      | some t => (t, ["Last successful run ended at: " ++ dtStr t])
      | none =>
        (now - fiveMinutes, ["No previous successful runs found, using 5-minute lookback"])

/-- The outcome of `post_to_slack`: the posted block batch (if any) and the
lines printed. -/
structure SlackOutcome where
  posted : Option (List Block)
  log : List String
deriving DecidableEq

/-- Embedding of `post_to_slack` (lines 167-180), with the webhook exchange
embedded as the response status and the per-message rendering calls
embedded as the `render` argument: line 175 calls `message_to_blocks`,
whose body (line 142) fails to compile — see `line142FString` — so that
name has no runtime semantics of its own to embed and is abstracted.  The
publisher itself mirrors the source: an empty message list logs and
returns without posting; otherwise the rendering outcomes are accumulated
(the first raised exception propagating), a single POST is issued only
when the accumulated block list is nonempty, and `raise_for_status`
raises on a 4xx/5xx response. -/
def post_to_slack (webhook_status : Nat)
    (render : Message → Except String (List Block)) (messages : List Message) :
    Except String SlackOutcome :=
  if messages = [] then Except.ok ⟨none, ["No messages to post"]⟩
  else
    match messages.mapM render with
    | Except.error e => Except.error e
    | Except.ok blockss =>
      let blocks := blockss.flatten
      if blocks = [] then Except.ok ⟨none, []⟩
      else if 400 ≤ webhook_status ∧ webhook_status < 600 then
        Except.error "HTTPError"
      else
        Except.ok ⟨some blocks,
          ["Posted " ++ toString messages.length ++ " messages to Slack"]⟩

/-- A simulated response for `get_channel_info` (lines 183-196). -/
structure ChannelInfoResponse where
  status_code : Nat
  name : Option String
  guild_id : Option String
deriving DecidableEq

/-- Embedding of `get_channel_info` (lines 183-196): on 403/404, on any raising status or
on any exception the fallback `(channel_id, None)` is returned. -/
def get_channel_info (channel_id : String)
    (resp : Except String ChannelInfoResponse) : String × Option String :=
  match resp with
  | Except.error _ => (channel_id, none)
  | Except.ok r =>
    if r.status_code = 403 ∨ r.status_code = 404 then (channel_id, none)
    else if 400 ≤ r.status_code ∧ r.status_code < 600 then (channel_id, none)
    else (r.name.getD channel_id, r.guild_id)

/-- The per-channel annotation of lines 230-232: stamp `_channel_name` and
`guild_id`, always creating the `guild_id` key (its value may be null). -/
def annotate (channel_name : String) (guild_id : Option String)
    (msg : Message) : Message :=
  { msg with channel_name := some channel_name, guild_id := some guild_id }

/-- The aggregation of line 233: per-channel message lists concatenated in
fetch order. -/
def aggregate (fetched : List (List Message)) : List Message :=
  fetched.flatten

/-- The global sort of line 236: stable sort, ascending by timestamp. -/
def sortByTimestamp (msgs : List Message) : List Message :=
  msgs.mergeSort (fun a b => a.timestamp ≤ b.timestamp)

/-- A sample fetched message with plain non-empty content. -/
def sampleMsgHi : Message :=
  { id := some "3", channel_id := some "2", guild_id := some (some "1"),
    author := some ⟨some "user", some "Glob"⟩, member := none,
    timestamp := 1, content := some "hi", mentions := none, type := none,
    referenced_message := none, channel_name := none }

/-- A sample fetched message with empty content. -/
def sampleMsgEmpty : Message :=
  { sampleMsgHi with id := some "4", timestamp := 2, content := some "" }

/-- A sample message sitting exactly at the watermark. -/
def sampleMsgAt : Message :=
  { sampleMsgHi with id := some "5", timestamp := 0 }

/-- C10: for every empty or null input content the Markdown Converter
returns the input unchanged, for any mentions list: the truthiness guard of
line 13 short-circuits the whole rewrite cascade. -/
theorem converter_noop_on_falsy (mentions : Option (List MentionUser)) :
    discord_to_slack_markdown none mentions = none
    ∧ discord_to_slack_markdown (some "") mentions = some "" :=
  ⟨rfl, rfl⟩

/-- C1 (code bug): the emphasis cascade of lines 24-26 does not leave bold
output alone: the single-star rule re-matches the asterisks emitted by the
triple- and double-star rules, so `***a***` becomes `__a__` (not the
documented `*_a_*`) and `**a**` becomes `_a_` (not the documented `*a*`);
only the pure-italic case agrees with the claim.  Each equation evaluates
`discord_to_slack_markdown` on a failing input from the claim. -/
theorem emphasis_precedence_code_bug :
    discord_to_slack_markdown (some "***a***") = some "__a__"
    ∧ discord_to_slack_markdown (some "**a**") = some "_a_"
    ∧ discord_to_slack_markdown (some "*a*") = some "_a_"
    ∧ discord_to_slack_markdown (some "**a** and *b*") = some "_a_ and _b_"
    ∧ discord_to_slack_markdown (some "***a***") ≠ some "*_a_*"
    ∧ discord_to_slack_markdown (some "**a**") ≠ some "*a*"
    ∧ discord_to_slack_markdown (some "**a** and *b*") ≠ some "*a* and _b_" := by
  decide

/-- C2 (counterexample): the CPython compile scan rejects the verbatim
line-142 f-string text — the backslash of `\}` sits inside the replacement
field opened by the `{` of `\{` — so the failure the code exhibits is a
compile-time SyntaxError, not the claimed runtime evaluation of the
undefined name `timestamp` by `message_to_blocks`. -/
theorem line142_backslash_compile_error :
    fstringScan false line142FString.data
      = some "SyntaxError: f-string expression part cannot include a backslash" := by
  decide

/-- C2 (amended): importing `src/main.py` aborts with the compile-time
SyntaxError of line 142 before any definition of the module exists, so
block rendering never runs, never evaluates any name, never returns
blocks, and no fetched message can be rendered and posted — the failure is
at import time, not a rendering-time `NameError`. -/
theorem rendering_never_compiles :
    importMainModule = Except.error
        "SyntaxError: f-string expression part cannot include a backslash"
    ∧ importMainModule ≠ Except.ok () := by
  have h1 : importMainModule = Except.error
      "SyntaxError: f-string expression part cannot include a backslash" := rfl
  refine ⟨h1, ?_⟩
  rw [h1]
  intro hcontra
  exact Except.noConfusion hcontra

/-- The fetcher unfolded on a concrete watermark. -/
theorem get_discord_messages_eq (resp : HttpResponse) (w : Int) :
    get_discord_messages resp (some w) =
      if resp.status_code = 403 then Except.ok []
      else if resp.status_code = 404 then Except.ok []
      else if 400 ≤ resp.status_code ∧ resp.status_code < 600 then
        Except.error resp.status_code
      else Except.ok (resp.body.filter (fun m => w < m.timestamp)) :=
  rfl

/-- C3: the watermark filter is strict.  A message is in the fetch result
only if its timestamp is strictly above the watermark; a message whose
timestamp equals the watermark is never in the result; and on a successful
response every fetched message strictly after the watermark (by any
amount) is kept. -/
theorem watermark_filter_strict (resp : HttpResponse) (w : Int)
    (L : List Message) (m : Message) :
    (get_discord_messages resp (some w) = Except.ok L → m ∈ L →
      w < m.timestamp)
    ∧ (get_discord_messages resp (some w) = Except.ok L → m.timestamp = w →
      m ∉ L)
    ∧ (resp.status_code = 200 → m ∈ resp.body → w < m.timestamp →
      get_discord_messages resp (some w) = Except.ok L → m ∈ L) := by
  refine ⟨?_, ?_, ?_⟩
  · intro hok hm
    rw [get_discord_messages_eq] at hok
    split_ifs at hok with h1 h2 h3
    all_goals first
      | exact Except.noConfusion hok
      | (injection hok with hL
         subst hL
         first
           | exact absurd hm (List.not_mem_nil m)
           | (have hmem := List.mem_filter.mp hm
              simpa using hmem.2))
  · intro hok heq hm
    rw [get_discord_messages_eq] at hok
    split_ifs at hok with h1 h2 h3
    all_goals first
      | exact Except.noConfusion hok
      | (injection hok with hL
         subst hL
         first
           | exact absurd hm (List.not_mem_nil m)
           | (have hmem := List.mem_filter.mp hm
              have hlt : w < m.timestamp := by simpa using hmem.2
              rw [heq] at hlt
              exact absurd hlt (lt_irrefl w)))
  · intro h200 hm hlt hok
    rw [get_discord_messages_eq, h200] at hok
    norm_num at hok
    rw [← hok]
    exact List.mem_filter.mpr ⟨hm, by simpa using hlt⟩

/-- C3 (witness): with watermark 0, the message with timestamp 1 is kept
and the message with timestamp exactly 0 is excluded. -/
theorem watermark_filter_strict_witness :
    sampleMsgHi ∈ [sampleMsgHi] ∧ sampleMsgAt ∉ [sampleMsgHi] :=
  ⟨(watermark_filter_strict ⟨200, [sampleMsgHi, sampleMsgAt]⟩ 0 [sampleMsgHi]
      sampleMsgHi).2.2 rfl (by decide) (by decide) rfl,
   (watermark_filter_strict ⟨200, [sampleMsgHi, sampleMsgAt]⟩ 0 [sampleMsgHi]
      sampleMsgAt).2.1 rfl rfl⟩

/-- C5: a 403 or 404 status makes the fetcher return an empty list (not an
error), and any other non-success (4xx/5xx) status is propagated as a
raised error, fatal for the run. -/
theorem fetch_status_policy (resp : HttpResponse) (since : Option Int) :
    ((resp.status_code = 403 ∨ resp.status_code = 404) →
      get_discord_messages resp since = Except.ok [])
    ∧ (400 ≤ resp.status_code → resp.status_code < 600 →
      resp.status_code ≠ 403 → resp.status_code ≠ 404 →
      get_discord_messages resp since = Except.error resp.status_code) := by
  constructor
  · intro hcase
    unfold get_discord_messages
    rcases hcase with h | h <;> simp [h]
  · intro h4 h6 hn3 hn4
    unfold get_discord_messages
    rw [if_neg hn3, if_neg hn4, if_pos ⟨h4, h6⟩]

/-- C5 (witness): simulated 403 gives an empty list; simulated 500 raises. -/
theorem fetch_status_policy_witness :
    get_discord_messages ⟨403, [sampleMsgHi]⟩ none = Except.ok []
    ∧ get_discord_messages ⟨500, [sampleMsgHi]⟩ none = Except.error 500 :=
  ⟨(fetch_status_policy ⟨403, [sampleMsgHi]⟩ none).1 (Or.inl rfl),
   (fetch_status_policy ⟨500, [sampleMsgHi]⟩ none).2 (by decide) (by decide)
     (by decide) (by decide)⟩

/-- C4: the Watermark Resolver is a total function of the query outcome
(it never raises).  With credentials present it returns the end time of the
first run in the page that has a non-null end time; on every failure —
missing credentials, a raised query, a null response, or no qualifying run
— it returns `now - 5 minutes` together with the logged warning line. -/
theorem watermark_resolver_total (tok : Option String)
    (query : Except String (Option RunsPage)) (now : Int) :
    (∀ page t, pyFalsyStr tok = false → query = Except.ok (some page) →
      firstEnded page.runs = some t →
      get_last_successful_run_time tok query now
        = (t, ["Last successful run ended at: " ++ dtStr t]))
    ∧ (pyFalsyStr tok = true →
      get_last_successful_run_time tok query now
        = (now - fiveMinutes,
            ["Warning: TOWER_API_KEY not set, using 5-minute lookback"]))
    ∧ (∀ e, pyFalsyStr tok = false → query = Except.error e →
      get_last_successful_run_time tok query now
        = (now - fiveMinutes,
            ["Warning: Could not fetch last run time: " ++ e
              ++ ", using 5-minute lookback"]))
    ∧ (pyFalsyStr tok = false → query = Except.ok none →
      get_last_successful_run_time tok query now
        = (now - fiveMinutes,
            ["No previous successful runs found, using 5-minute lookback"]))
    ∧ (∀ page, pyFalsyStr tok = false → query = Except.ok (some page) →
      firstEnded page.runs = none →
      get_last_successful_run_time tok query now
        = (now - fiveMinutes,
            ["No previous successful runs found, using 5-minute lookback"])) := by
  refine ⟨?_, ?_, ?_, ?_, ?_⟩
  · intro page t htok hq hfe
    subst hq
    simp [get_last_successful_run_time, htok, hfe]
  · intro htok
    simp [get_last_successful_run_time, htok]
  · intro e htok hq
    subst hq
    simp [get_last_successful_run_time, htok]
  · intro htok hq
    subst hq
    simp [get_last_successful_run_time, htok]
  · intro page htok hq hfe
    subst hq
    simp [get_last_successful_run_time, htok, hfe]

/-- C4 (witness): the resolver applied to a concrete page whose first run
has a null end time and whose second ended at 42. -/
theorem watermark_resolver_total_witness :
    get_last_successful_run_time (some "key")
        (Except.ok (some ⟨[⟨none⟩, ⟨some 42⟩]⟩)) 0
      = (42, ["Last successful run ended at: " ++ dtStr 42]) :=
  (watermark_resolver_total (some "key")
      (Except.ok (some ⟨[⟨none⟩, ⟨some 42⟩]⟩)) 0).1
    ⟨[⟨none⟩, ⟨some 42⟩]⟩ 42 rfl rfl rfl

/-- A fetched message with `channel_id` and `id` keys but no `guild_id` key. -/
def sampleMsgNoGuild : Message :=
  { sampleMsgHi with guild_id := none }

/-- C6: aggregated messages are globally sorted by timestamp before
rendering.  When all aggregated timestamps are distinct, the sorted order
is strictly timestamp-ascending and does not depend on the per-channel
fetch order: two aggregations that are permutations of each other sort to
the same list, which is a permutation of the aggregated messages. -/
theorem global_order_sorted (chans1 chans2 : List (List Message))
    (hperm : (aggregate chans1).Perm (aggregate chans2))
    (hdist : (aggregate chans1).Pairwise
      (fun a b => a.timestamp ≠ b.timestamp)) :
    sortByTimestamp (aggregate chans1) = sortByTimestamp (aggregate chans2)
    ∧ (sortByTimestamp (aggregate chans1)).Pairwise
        (fun a b => a.timestamp < b.timestamp)
    ∧ (sortByTimestamp (aggregate chans1)).Perm (aggregate chans1) := by
  have htrans : ∀ a b c : Message,
      decide (a.timestamp ≤ b.timestamp) = true →
      decide (b.timestamp ≤ c.timestamp) = true →
      decide (a.timestamp ≤ c.timestamp) = true := by
    intro a b c hab hbc
    simp only [decide_eq_true_eq] at hab hbc ⊢
    omega
  have htot : ∀ a b : Message,
      (decide (a.timestamp ≤ b.timestamp)
        || decide (b.timestamp ≤ a.timestamp)) = true := by
    intro a b
    simp only [Bool.or_eq_true, decide_eq_true_eq]
    omega
  have perm1 : (sortByTimestamp (aggregate chans1)).Perm (aggregate chans1) :=
    List.mergeSort_perm (aggregate chans1) _
  have perm2 : (sortByTimestamp (aggregate chans2)).Perm (aggregate chans2) :=
    List.mergeSort_perm (aggregate chans2) _
  have hle1 : (sortByTimestamp (aggregate chans1)).Pairwise
      (fun a b => decide (a.timestamp ≤ b.timestamp) = true) :=
    List.sorted_mergeSort htrans htot (aggregate chans1)
  have hle2 : (sortByTimestamp (aggregate chans2)).Pairwise
      (fun a b => decide (a.timestamp ≤ b.timestamp) = true) :=
    List.sorted_mergeSort htrans htot (aggregate chans2)
  have hne1 : (sortByTimestamp (aggregate chans1)).Pairwise
      (fun a b => a.timestamp ≠ b.timestamp) :=
    hdist.perm perm1.symm (fun h => h.symm)
  have hne2 : (sortByTimestamp (aggregate chans2)).Pairwise
      (fun a b => a.timestamp ≠ b.timestamp) :=
    hdist.perm (hperm.trans perm2.symm) (fun h => h.symm)
  have hlt1 : (sortByTimestamp (aggregate chans1)).Pairwise
      (fun a b => a.timestamp < b.timestamp) :=
    (hle1.and hne1).imp
      (fun h => lt_of_le_of_ne (by simpa using h.1) h.2)
  have hlt2 : (sortByTimestamp (aggregate chans2)).Pairwise
      (fun a b => a.timestamp < b.timestamp) :=
    (hle2.and hne2).imp
      (fun h => lt_of_le_of_ne (by simpa using h.1) h.2)
  have hp : (sortByTimestamp (aggregate chans1)).Perm
      (sortByTimestamp (aggregate chans2)) :=
    perm1.trans (hperm.trans perm2.symm)
  refine ⟨?_, hlt1, perm1⟩
  exact List.Perm.eq_of_sorted
    (fun a b _ _ hab hba => absurd hba (lt_asymm hab)) hlt1 hlt2 hp

/-- C6 (witness): two channels with interleaved distinct timestamps sort to
the same strictly ascending order regardless of channel order. -/
theorem global_order_sorted_witness :
    sortByTimestamp (aggregate [[sampleMsgEmpty], [sampleMsgHi]])
      = sortByTimestamp (aggregate [[sampleMsgHi], [sampleMsgEmpty]])
    ∧ (sortByTimestamp (aggregate [[sampleMsgEmpty], [sampleMsgHi]])).Pairwise
        (fun a b => a.timestamp < b.timestamp) :=
  ⟨(global_order_sorted [[sampleMsgEmpty], [sampleMsgHi]]
      [[sampleMsgHi], [sampleMsgEmpty]] (by decide) (by decide)).1,
   (global_order_sorted [[sampleMsgEmpty], [sampleMsgHi]]
      [[sampleMsgHi], [sampleMsgEmpty]] (by decide) (by decide)).2.1⟩

/-- C8 (counterexample): `main` stamps the `guild_id` key on every fetched
message even when the channel-info lookup failed and resolved it to null,
and `get_discord_url` tests only key presence, so a message whose guild id
was resolved to null still gets a link attached — one whose URL contains
the text "None" — where the claim requires no link at all. -/
theorem link_attachment_counterexample :
    get_discord_url (annotate "general" none sampleMsgNoGuild)
      = some "https://discord.com/channels/None/2/3"
    ∧ get_discord_url (annotate "general" none sampleMsgNoGuild) ≠ none := by
  decide

/-- C8 (amended): a link is attached iff the `guild_id`, `channel_id` and
`id` keys are all present on the message (values are interpolated into the
URL, a null guild printing as "None"); after the per-channel annotation of
`main` the `guild_id` key is always present, so the link then only requires
the `channel_id` and `id` keys, regardless of whether channel-info resolved
a guild id or returned null. -/
theorem link_attachment_resolved (msg : Message) (nameC : String)
    (g : Option String) :
    ((get_discord_url msg).isSome ↔
      (msg.guild_id.isSome ∧ msg.channel_id.isSome ∧ msg.id.isSome))
    ∧ (msg.channel_id.isSome = true → msg.id.isSome = true →
      (get_discord_url (annotate nameC g msg)).isSome = true) := by
  constructor
  · cases hg : msg.guild_id <;> cases hc : msg.channel_id <;>
      cases hi : msg.id <;>
      simp [get_discord_url, get_discord_url_parts, hg, hc, hi]
  · intro hc hi
    obtain ⟨c0, hc0⟩ := Option.isSome_iff_exists.mp hc
    obtain ⟨i0, hi0⟩ := Option.isSome_iff_exists.mp hi
    simp [get_discord_url, annotate, get_discord_url_parts, hc0, hi0]

/-- C8 (witness): the amended statement applied to the concrete message
whose channel-info lookup failed. -/
theorem link_attachment_resolved_witness :
    (get_discord_url (annotate "general" none sampleMsgNoGuild)).isSome
      = true :=
  (link_attachment_resolved sampleMsgNoGuild "general" none).2
    (by decide) (by decide)

/-- C9 (code bug): the Publisher never executes at all — importing the
module fails with the line-142 SyntaxError before any definition exists,
so no batched post, no-op log line, or webhook call ever occurs.
Additionally, the publisher code of lines 167-180 taken in isolation (over
the outcomes of its rendering calls) prints its no-op line only when the
message list itself is empty: with messages present and every block
suppressed it posts nothing and logs nothing, while a successful post is a
single batch of all accumulated blocks and a 4xx/5xx webhook response
raises. -/
theorem publisher_behavior_code_bug :
    importMainModule = Except.error
        "SyntaxError: f-string expression part cannot include a backslash"
    ∧ post_to_slack 200 (fun _ => Except.ok []) []
        = Except.ok ⟨none, ["No messages to post"]⟩
    ∧ post_to_slack 200 (fun _ => Except.ok []) [sampleMsgHi, sampleMsgEmpty]
        = Except.ok ⟨none, []⟩
    ∧ post_to_slack 200 (fun _ => Except.ok [Block.divider])
        [sampleMsgHi, sampleMsgEmpty]
        = Except.ok ⟨some [Block.divider, Block.divider],
            ["Posted 2 messages to Slack"]⟩
    ∧ post_to_slack 500 (fun _ => Except.ok [Block.divider])
        [sampleMsgHi, sampleMsgEmpty] = Except.error "HTTPError" :=
  ⟨rfl, rfl, rfl, rfl, rfl⟩
